import Mathlib

/-!
Verification of the deCONZ pairing/discovery config flow
(`homeassistant/components/deconz/config_flow.py`).

The flow handler's step methods are embedded as pure Lean functions.  One
invocation of a step method is one Lean function application: the outcomes of
the external, time-boxed network calls (discovery, credential negotiation,
identity resolution) are supplied through an `Env` record, and each step
returns the produced flow result, the updated flow state, the updated registry
of config entries, and the list of external calls the invocation performed.

The Home Assistant framework primitives used by the flow
(`async_set_unique_id`, `_abort_if_unique_id_configured`,
`async_create_entry`) live outside this file's source tree; they are modelled
from the spec's description of the persistent record store and Registration
Ledger.  The identity normalizer and the transport outcome alphabets are
likewise modelled from the spec's interface section.
-/

namespace Deconz

/-- The pseudo-host offered in the user step for manual configuration. -/
def CONF_MANUAL_INPUT : String := "Manually define gateway"

/-- Connection data stored on a config entry: host, port and API key. -/
structure EntryData where
  host : String
  port : Nat
  api_key : String
deriving DecidableEq

/-- Originating source of a flow / config entry (`config_entries.SOURCE_*`). -/
inductive Source where
  | user
  | ssdp
  | hassio
  | reauth
deriving DecidableEq

/-- A persisted config entry (BridgeRecord): unique id, source, title, data. -/
structure ConfigEntry where
  unique_id : Option String
  source : Source
  title : String
  data : EntryData
deriving DecidableEq

/-- The persistent store of config entries for the deconz domain. -/
abbrev Registry := List ConfigEntry

/-- A candidate bridge as returned by the discovery transport. -/
structure DiscoveredBridge where
  id : String
  host : String
  port : Nat
deriving DecidableEq

/-- Modelled from the spec: the discovery transport either returns a list of
candidate bridges or fails with a timeout or a response error. -/
inductive DiscoveryOutcome where
  | ok (bridges : List DiscoveredBridge)
  | timeout
  | responseError
deriving DecidableEq

/-- Modelled from the spec: the handshake transport returns a credential or
fails with one of the distinguished errors (button not pressed, response
error, request error, timeout). -/
inductive LinkOutcome where
  | ok (api_key : String)
  | linkButtonNotPressed
  | responseError
  | requestError
  | timeout
deriving DecidableEq

/-- Outcomes of the external calls a step invocation may make.  `resolution`
is the identity-lookup transport: `some raw` is the raw identifier it
returns, `none` is a timeout. -/
structure Env where
  discovery : DiscoveryOutcome
  negotiation : LinkOutcome
  resolution : Option String

/-- In-flow state of one `DeconzFlowHandler` instance: the fields the handler
mutates across steps plus its flow source and registered unique id. -/
structure FlowState where
  source : Source
  bridge_id : String
  bridges : List DiscoveredBridge
  host : String
  port : Nat
  api_key : String
  unique_id : Option String
deriving DecidableEq

/-- The result a step invocation hands back to the flow manager. -/
inductive FlowResult where
  | show_form (step_id : String) (errors : List (String × String))
  | abort (reason : String)
  | create (title : String) (data : EntryData)
deriving DecidableEq

/-- External network calls, recorded in the order a step invocation makes
them. -/
inductive ExtCall where
  | discoveryCall
  | negotiationCall
  | resolutionCall
deriving DecidableEq

/-- Everything one step invocation produces. -/
structure StepOutput where
  result : FlowResult
  state : FlowState
  registry : Registry
  calls : List ExtCall

/-- Modelled from the spec: the Identity Normalizer case-folds an ASCII
upper-case letter. -/
def fold_char (c : Char) : Char :=
  if 65 ≤ c.toNat ∧ c.toNat ≤ 90 then Char.ofNat (c.toNat + 32) else c

/-- Modelled from the spec: the Identity Normalizer (the implementation
delegates to the external pydeconz `normalize_bridge_id`) strips separator
characters and case-folds, so that two raw strings denoting the same bridge
normalize identically. -/
def normalize_bridge_id (raw : String) : String :=
  String.mk (((raw.toList).filter (fun c => c != ':' && c != '-')).map fold_char)

/-- Modelled from the spec: the Bridge Identity Resolver (the external
pydeconz `get_bridge_id`) derives the canonical bridge identity from the raw
identifier reported by the bridge. -/
def deconz_get_bridge_id (raw : String) : String :=
  normalize_bridge_id raw

/-- Modelled from the spec: the persistent record store's lookup by canonical
identity (the first entry whose unique id matches). -/
def lookup_entry (reg : Registry) (uid : String) : Option ConfigEntry :=
  reg.find? (fun e => e.unique_id == some uid)

/-- Modelled from the spec: registering the flow's unique id records it on
the session and returns the existing record for that identity, if any. -/
def async_set_unique_id (s : FlowState) (uid : String) (reg : Registry) :
    FlowState × Option ConfigEntry :=
  ({ s with unique_id := some uid }, lookup_entry reg uid)

/-- Partial update of an entry's connection data, as passed to the duplicate
check. -/
structure Updates where
  host : Option String
  port : Option Nat
  api_key : Option String

/-- Merge a partial update into existing entry data (field-wise overwrite). -/
def applyUpdates (u : Updates) (d : EntryData) : EntryData :=
  { host := u.host.getD d.host
    port := u.port.getD d.port
    api_key := u.api_key.getD d.api_key }

/-- Modelled from the spec: the Registration Ledger's duplicate check — if a
record already exists for the flow's registered unique id, merge the supplied
connection parameters into it in place and signal duplicate-abort
(`already_configured`); otherwise do nothing. -/
def abort_if_unique_id_configured (s : FlowState) (u : Updates) (reg : Registry) :
    Registry × Option FlowResult :=
  match s.unique_id with
  | none => (reg, none)
  | some uid =>
    match lookup_entry reg uid with
    | none => (reg, none)
    | some _ =>
      (reg.map (fun e =>
        if e.unique_id == some uid then { e with data := applyUpdates u e.data } else e),
       some (FlowResult.abort "already_configured"))

/-- Modelled from the spec: the Registration Ledger creates a new record
carrying the flow's registered unique id and originating source. -/
def async_create_entry (s : FlowState) (title : String) (d : EntryData) (reg : Registry) :
    Registry × FlowResult :=
  (reg ++ [⟨s.unique_id, s.source, title, d⟩], FlowResult.create title d)

/-- Embedding of `DeconzFlowHandler._create_entry`: when the bridge id is
still unknown it is resolved (aborting the flow with `no_bridges` on
timeout), the unique id is registered and the duplicate check runs with
host/port/api-key updates; then a new entry is created. -/
def create_entry (env : Env) (s : FlowState) (reg : Registry) : StepOutput :=
  if s.bridge_id = "" then
    match env.resolution with
    | none => ⟨FlowResult.abort "no_bridges", s, reg, [ExtCall.resolutionCall]⟩
    | some raw =>
      let su := (async_set_unique_id { s with bridge_id := deconz_get_bridge_id raw }
        (deconz_get_bridge_id raw) reg).1
      match abort_if_unique_id_configured su
          (Updates.mk (some su.host) (some su.port) (some su.api_key)) reg with
      | (reg1, some r) => ⟨r, su, reg1, [ExtCall.resolutionCall]⟩
      | (reg1, none) =>
        let created := async_create_entry su su.bridge_id
          (EntryData.mk su.host su.port su.api_key) reg1
        ⟨created.2, su, created.1, [ExtCall.resolutionCall]⟩
  else
    let created := async_create_entry s s.bridge_id
      (EntryData.mk s.host s.port s.api_key) reg
    ⟨created.2, s, created.1, []⟩

/-- Embedding of `async_step_link`: with no user input the link form renders;
on submission the credential negotiation runs and its outcome is classified
(button-not-pressed re-renders with `linking_not_possible`, the other errors
and timeout re-render with `no_key`, success stores the key and commits). -/
def step_link (env : Env) (user_input : Option Unit) (s : FlowState) (reg : Registry) :
    StepOutput :=
  match user_input with
  | none => ⟨FlowResult.show_form "link" [], s, reg, []⟩
  | some _ =>
    match env.negotiation with
    | LinkOutcome.linkButtonNotPressed =>
      ⟨FlowResult.show_form "link" [("base", "linking_not_possible")], s, reg,
        [ExtCall.negotiationCall]⟩
    | LinkOutcome.responseError =>
      ⟨FlowResult.show_form "link" [("base", "no_key")], s, reg, [ExtCall.negotiationCall]⟩
    | LinkOutcome.requestError =>
      ⟨FlowResult.show_form "link" [("base", "no_key")], s, reg, [ExtCall.negotiationCall]⟩
    | LinkOutcome.timeout =>
      ⟨FlowResult.show_form "link" [("base", "no_key")], s, reg, [ExtCall.negotiationCall]⟩
    | LinkOutcome.ok key =>
      let out := create_entry env { s with api_key := key } reg
      ⟨out.result, out.state, out.registry, ExtCall.negotiationCall :: out.calls⟩

/-- Embedding of `async_step_manual_input`: store the submitted host/port and
enter the link step, or render the manual input form. -/
def step_manual_input (env : Env) (input : Option (String × Nat)) (s : FlowState)
    (reg : Registry) : StepOutput :=
  match input with
  | some hp => step_link env none { s with host := hp.1, port := hp.2 } reg
  | none => ⟨FlowResult.show_form "manual_input" [], s, reg, []⟩

/-- Embedding of the discovery part of `async_step_user`: run discovery
(timeout and response error degrade to an empty candidate list), then either
offer the choice form or fall through to manual input. -/
def step_user_discovery (env : Env) (s : FlowState) (reg : Registry) : StepOutput :=
  let s1 :=
    match env.discovery with
    | DiscoveryOutcome.ok bs => { s with bridges := bs }
    | DiscoveryOutcome.timeout => { s with bridges := [] }
    | DiscoveryOutcome.responseError => { s with bridges := [] }
  if s1.bridges.isEmpty then
    let out := step_manual_input env none s1 reg
    ⟨out.result, out.state, out.registry, ExtCall.discoveryCall :: out.calls⟩
  else
    ⟨FlowResult.show_form "user" [], s1, reg, [ExtCall.discoveryCall]⟩

/-- Embedding of `async_step_user`: a submitted choice either switches to
manual input, or selects a discovered bridge (storing its id, host and port
and entering the link step); otherwise discovery runs. -/
def step_user (env : Env) (input : Option String) (s : FlowState) (reg : Registry) :
    StepOutput :=
  match input with
  | some hst =>
    if hst = CONF_MANUAL_INPUT then step_manual_input env none s reg
    else
      match s.bridges.find? (fun b => b.host == hst) with
      | some b =>
        step_link env none { s with bridge_id := b.id, host := b.host, port := b.port } reg
      | none => step_user_discovery env s reg
  | none => step_user_discovery env s reg

/-- Embedding of `async_step_reauth`: seed host and port from the existing
entry's data and enter the link step. -/
def step_reauth (env : Env) (entry_host : String) (entry_port : Nat) (s : FlowState)
    (reg : Registry) : StepOutput :=
  step_link env none { s with host := entry_host, port := entry_port } reg

/-- Continuation of `async_step_ssdp` after the hassio-source check: store
host and port from the announcement location, run the duplicate check with
host/port updates, then enter the link step. -/
def step_ssdp_continue (env : Env) (loc_host : String) (loc_port : Nat) (s2 : FlowState)
    (reg : Registry) : StepOutput :=
  let s3 := { s2 with host := loc_host, port := loc_port }
  match abort_if_unique_id_configured s3 (Updates.mk (some loc_host) (some loc_port) none) reg with
  | (reg1, some r) => ⟨r, s3, reg1, []⟩
  | (reg1, none) => step_link env none s3 reg1

/-- Embedding of `async_step_ssdp`: normalize the announced serial, register
it as unique id; if an entry exists and its source is hassio, abort without
touching the registry; otherwise continue with the duplicate check and the
link step. -/
def step_ssdp (env : Env) (serial : String) (loc_host : String) (loc_port : Nat)
    (s : FlowState) (reg : Registry) : StepOutput :=
  let res := async_set_unique_id { s with bridge_id := normalize_bridge_id serial }
    (normalize_bridge_id serial) reg
  match res.2 with
  | some e =>
    if e.source == Source.hassio then
      ⟨FlowResult.abort "already_configured", res.1, reg, []⟩
    else
      step_ssdp_continue env loc_host loc_port res.1 reg
  | none => step_ssdp_continue env loc_host loc_port res.1 reg

/-- Embedding of `async_step_hassio`: normalize the announced serial,
register it as unique id, store the announced host/port/api-key, run the
duplicate check with full updates, then render the confirmation form. -/
def step_hassio (_env : Env) (serial : String) (cfg_host : String) (cfg_port : Nat)
    (cfg_api_key : String) (s : FlowState) (reg : Registry) : StepOutput :=
  let s2 := (async_set_unique_id { s with bridge_id := normalize_bridge_id serial }
    (normalize_bridge_id serial) reg).1
  let s3 := { s2 with host := cfg_host, port := cfg_port, api_key := cfg_api_key }
  match abort_if_unique_id_configured s3
      (Updates.mk (some cfg_host) (some cfg_port) (some cfg_api_key)) reg with
  | (reg1, some r) => ⟨r, s3, reg1, []⟩
  | (reg1, none) => ⟨FlowResult.show_form "hassio_confirm" [], s3, reg1, []⟩

/-- Embedding of `async_step_hassio_confirm`: on confirmation commit,
otherwise render the confirmation form. -/
def step_hassio_confirm (env : Env) (input : Option Unit) (s : FlowState) (reg : Registry) :
    StepOutput :=
  match input with
  | some _ => create_entry env s reg
  | none => ⟨FlowResult.show_form "hassio_confirm" [], s, reg, []⟩

/-- Embedding of `DeconzFlowHandler.__init__`: the bridge id starts empty.
The remaining fields are unset in the source until a step assigns them; they
take placeholder defaults here and no modelled path reads them before
assignment. -/
def init_flow (src : Source) : FlowState :=
  { source := src, bridge_id := "", bridges := [], host := "", port := 0, api_key := ""
    unique_id := none }

/-- A runtime gateway object as held in the per-domain data registry. -/
structure DeconzGateway where
  bridge_id : String
  master : Bool
deriving DecidableEq

/-- The exception class raised by `get_master_gateway` when no master is
registered. -/
inductive PyError where
  | valueError
deriving DecidableEq

/-- Embedding of `get_master_gateway`: scan the registered gateways in
iteration order and return the first one whose master flag is set; raise
`ValueError` when none is. -/
def get_master_gateway : List DeconzGateway → Except PyError DeconzGateway
  | [] => Except.error PyError.valueError
  | g :: gs => if g.master then Except.ok g else get_master_gateway gs

/-- Number of registry entries whose unique id is the given canonical
identity. -/
def records_for (reg : Registry) (uid : String) : Nat :=
  (reg.filter (fun e => e.unique_id == some uid)).length

end Deconz

namespace Deconz

/-- Updating the data of the entries matching a unique id does not change how
many entries match that unique id. -/
lemma records_for_map_update (reg : Registry) (uid : String) (u : Updates) :
    records_for (reg.map (fun e =>
      if e.unique_id == some uid then { e with data := applyUpdates u e.data } else e)) uid
      = records_for reg uid := by
  unfold records_for
  rw [List.filter_map, List.length_map]
  congr 1
  apply List.filter_congr
  intro e he
  by_cases h : e.unique_id = some uid <;> simp [h]

/-- After merging a full host/port/api-key update into every entry matching a
unique id, every matching entry carries exactly the updated data. -/
lemma mem_update_map_data (reg : Registry) (uid ch : String) (cp : Nat) (ck : String) :
    ∀ e2 ∈ reg.map (fun e =>
      if e.unique_id == some uid then
        { e with data := applyUpdates (Updates.mk (some ch) (some cp) (some ck)) e.data }
      else e),
      e2.unique_id = some uid → e2.data = EntryData.mk ch cp ck := by
  intro e2 he2 hid
  obtain ⟨a, ha, rfl⟩ := List.mem_map.1 he2
  by_cases h : a.unique_id = some uid
  · simp [h, applyUpdates]
  · simp [h] at hid

/-- Claim C10 (confirmed): `get_master_gateway` returns the first registered
gateway in iteration order whose master flag is set, and raises `ValueError`
when no gateway is marked master — there is no non-raising not-found result. -/
theorem C10_get_master_gateway (gws : List DeconzGateway) :
    get_master_gateway gws =
      match gws.find? (fun g => g.master) with
      | some g => Except.ok g
      | none => Except.error PyError.valueError := by
  induction gws with
  | nil => rfl
  | cons g t ih =>
    by_cases hm : g.master
    · simp [get_master_gateway, List.find?_cons, hm]
    · simp [get_master_gateway, List.find?_cons, hm, ih]

/-- Claim C7 (confirmed): when the identity is still unknown at commit time
and the identity-resolution call times out, the whole flow aborts with reason
`no_bridges` and no record is created (the registry is unchanged). -/
theorem C7_resolution_timeout_aborts (env : Env) (s : FlowState) (reg : Registry)
    (hbid : s.bridge_id = "") (hres : env.resolution = none) :
    (create_entry env s reg).result = FlowResult.abort "no_bridges" ∧
    (create_entry env s reg).registry = reg := by
  simp [create_entry, hbid, hres]

/-- Claim C6 (confirmed): when the discovery call times out or fails with a
response error in the user step, the candidate list is treated as empty and
the flow proceeds to the manual-input form; both failure outcomes of the
discovery interface are caught, so no discovery failure propagates to the
caller of the step function. -/
theorem C6_discovery_failure_nonfatal (env : Env) (s : FlowState) (reg : Registry)
    (hfail : env.discovery = DiscoveryOutcome.timeout ∨
      env.discovery = DiscoveryOutcome.responseError) :
    (step_user env none s reg).result = FlowResult.show_form "manual_input" [] ∧
    (step_user env none s reg).state.bridges = [] ∧
    (step_user env none s reg).registry = reg := by
  rcases hfail with h | h <;>
    simp [step_user, step_user_discovery, step_manual_input, h]

/-- Claim C4 (confirmed): in the link step the three negotiation outcomes map
to three distinct results — success proceeds to the commit step with the
obtained credential, the button-not-pressed error re-renders the link form
with reason `linking_not_possible`, and any other negotiation error or
timeout re-renders the link form with the distinct reason `no_key`; no
negotiation failure ever aborts the flow. -/
theorem C4_link_outcomes (env : Env) (s : FlowState) (reg : Registry) :
    (∀ k, env.negotiation = LinkOutcome.ok k →
      step_link env (some ()) s reg =
        ⟨(create_entry env { s with api_key := k } reg).result,
         (create_entry env { s with api_key := k } reg).state,
         (create_entry env { s with api_key := k } reg).registry,
         ExtCall.negotiationCall :: (create_entry env { s with api_key := k } reg).calls⟩) ∧
    (env.negotiation = LinkOutcome.linkButtonNotPressed →
      (step_link env (some ()) s reg).result
        = FlowResult.show_form "link" [("base", "linking_not_possible")]) ∧
    ((env.negotiation = LinkOutcome.responseError ∨
        env.negotiation = LinkOutcome.requestError ∨
        env.negotiation = LinkOutcome.timeout) →
      (step_link env (some ()) s reg).result = FlowResult.show_form "link" [("base", "no_key")]) ∧
    ((env.negotiation = LinkOutcome.linkButtonNotPressed ∨
        env.negotiation = LinkOutcome.responseError ∨
        env.negotiation = LinkOutcome.requestError ∨
        env.negotiation = LinkOutcome.timeout) →
      ∀ rsn, (step_link env (some ()) s reg).result ≠ FlowResult.abort rsn) := by
  refine ⟨?_, ?_, ?_, ?_⟩
  · intro k hk
    simp [step_link, hk]
  · intro hk
    simp [step_link, hk]
  · rintro (h | h | h) <;> simp [step_link, h]
  · rintro (h | h | h | h) <;> intro rsn <;> simp [step_link, h]

/-- Claim C5 (confirmed): every negotiation failure in the link step leaves
the whole session state (in particular host and port) and the registry
unchanged, and a subsequent successful negotiation from the re-rendered
prompt commits normally using the same host and port. -/
theorem C5_link_failure_frame (env : Env) (s : FlowState) (reg : Registry)
    (hfail : env.negotiation = LinkOutcome.linkButtonNotPressed ∨
      env.negotiation = LinkOutcome.responseError ∨
      env.negotiation = LinkOutcome.requestError ∨
      env.negotiation = LinkOutcome.timeout) :
    (step_link env (some ()) s reg).state = s ∧
    (step_link env (some ()) s reg).registry = reg ∧
    ∀ env2 k, env2.negotiation = LinkOutcome.ok k →
      step_link env2 (some ()) (step_link env (some ()) s reg).state
          (step_link env (some ()) s reg).registry =
        ⟨(create_entry env2 { s with api_key := k } reg).result,
         (create_entry env2 { s with api_key := k } reg).state,
         (create_entry env2 { s with api_key := k } reg).registry,
         ExtCall.negotiationCall :: (create_entry env2 { s with api_key := k } reg).calls⟩ := by
  have hframe : (step_link env (some ()) s reg).state = s ∧
      (step_link env (some ()) s reg).registry = reg := by
    rcases hfail with h | h | h | h <;> simp [step_link, h]
  refine ⟨hframe.1, hframe.2, ?_⟩
  intro env2 k hk
  rw [hframe.1, hframe.2]
  simp [step_link, hk]

/-- Claim C1 (amended): for every flow whose identity is still unresolved
when it reaches the commit step (the manual-entry and re-authentication
paths), committing for a canonical identity that already has exactly one
record leaves exactly one record for that identity, updates its host, port
and credential in place to the flow's values, and aborts as
`already_configured`.  The original claim also covered user-initiated flows
that took their identity from a discovered candidate; those reach commit with
the identity pre-set, skip the ledger check, and can create a second record
(see the counterexample). -/
theorem C1_update_in_place (env : Env) (s : FlowState) (reg : Registry) (raw : String)
    (e : ConfigEntry)
    (hbid : s.bridge_id = "") (hres : env.resolution = some raw)
    (hl : lookup_entry reg (deconz_get_bridge_id raw) = some e)
    (hcount : records_for reg (deconz_get_bridge_id raw) = 1) :
    (create_entry env s reg).result = FlowResult.abort "already_configured" ∧
    records_for (create_entry env s reg).registry (deconz_get_bridge_id raw) = 1 ∧
    ∀ e2 ∈ (create_entry env s reg).registry,
      e2.unique_id = some (deconz_get_bridge_id raw) →
        e2.data = EntryData.mk s.host s.port s.api_key := by
  have hout : create_entry env s reg =
      ⟨FlowResult.abort "already_configured",
       { s with bridge_id := deconz_get_bridge_id raw, unique_id := some (deconz_get_bridge_id raw) },
       reg.map (fun e2 =>
         if e2.unique_id == some (deconz_get_bridge_id raw) then
           { e2 with data := applyUpdates (Updates.mk (some s.host) (some s.port) (some s.api_key)) e2.data }
         else e2),
       [ExtCall.resolutionCall]⟩ := by
    simp [create_entry, hbid, hres, async_set_unique_id, abort_if_unique_id_configured, hl]
  rw [hout]
  refine ⟨rfl, ?_, ?_⟩
  · rw [records_for_map_update]
    exact hcount
  · exact mem_update_map_data reg (deconz_get_bridge_id raw) s.host s.port s.api_key

/-- Claim C2 (amended): a network-announcement (SSDP) flow aborts without
modifying the existing record when that record's source is the host platform;
a host-platform (hassio) announcement flow over an existing record also
aborts as `already_configured`, but first updates the record's host, port and
credential in place, regardless of the record's origin — contrary to the
original claim that neither announcement trigger modifies the record. -/
theorem C2_announcement_precedence :
    (∀ env serial loc_host loc_port s reg e,
      lookup_entry reg (normalize_bridge_id serial) = some e → e.source = Source.hassio →
        (step_ssdp env serial loc_host loc_port s reg).result
          = FlowResult.abort "already_configured" ∧
        (step_ssdp env serial loc_host loc_port s reg).registry = reg) ∧
    (∀ env serial ch cp ck s reg e,
      lookup_entry reg (normalize_bridge_id serial) = some e →
        (step_hassio env serial ch cp ck s reg).result
          = FlowResult.abort "already_configured" ∧
        ∀ e2 ∈ (step_hassio env serial ch cp ck s reg).registry,
          e2.unique_id = some (normalize_bridge_id serial) → e2.data = EntryData.mk ch cp ck) := by
  constructor
  · intro env serial loc_host loc_port s reg e hl hsrc
    simp [step_ssdp, async_set_unique_id, hl, hsrc]
  · intro env serial ch cp ck s reg e hl
    have hout : step_hassio env serial ch cp ck s reg =
        ⟨FlowResult.abort "already_configured",
         { s with bridge_id := normalize_bridge_id serial,
                  unique_id := some (normalize_bridge_id serial),
                  host := ch, port := cp, api_key := ck },
         reg.map (fun e2 =>
           if e2.unique_id == some (normalize_bridge_id serial) then
             { e2 with data := applyUpdates (Updates.mk (some ch) (some cp) (some ck)) e2.data }
           else e2),
         []⟩ := by
      simp [step_hassio, async_set_unique_id, abort_if_unique_id_configured, hl]
    rw [hout]
    exact ⟨rfl, mem_update_map_data reg (normalize_bridge_id serial) ch cp ck⟩

/-- Claim C8 (amended): the identity normalizer is applied to the announced
serial in both announcement steps (SSDP and hassio) before it is compared or
stored, and the identity resolved at the commit step is canonical; but the
identity of a discovered candidate selected in the user step is stored in the
session exactly as delivered by the discovery transport, without the flow
applying the normalizer. -/
theorem C8_normalization_points :
    (∀ env serial loc_host loc_port s reg,
      (step_ssdp env serial loc_host loc_port s reg).state.bridge_id
        = normalize_bridge_id serial) ∧
    (∀ env serial ch cp ck s reg,
      (step_hassio env serial ch cp ck s reg).state.bridge_id = normalize_bridge_id serial) ∧
    (∀ env s reg raw, s.bridge_id = "" → env.resolution = some raw →
      (create_entry env s reg).state.bridge_id = normalize_bridge_id raw) ∧
    (∀ env hst s reg b, s.bridges.find? (fun x => x.host == hst) = some b →
      hst ≠ CONF_MANUAL_INPUT →
      (step_user env (some hst) s reg).state.bridge_id = b.id) := by
  refine ⟨?_, ?_, ?_, ?_⟩
  · intro env serial loc_host loc_port s reg
    rcases hlook : lookup_entry reg (normalize_bridge_id serial) with _ | e
    · rcases habort : abort_if_unique_id_configured
          { s with bridge_id := normalize_bridge_id serial,
                   unique_id := some (normalize_bridge_id serial),
                   host := loc_host, port := loc_port }
          (Updates.mk (some loc_host) (some loc_port) none) reg with ⟨reg1, orr⟩
      · cases orr <;>
          simp [step_ssdp, step_ssdp_continue, async_set_unique_id, step_link, hlook, habort]
    · by_cases hsrc : e.source = Source.hassio
      · simp [step_ssdp, async_set_unique_id, hlook, hsrc]
      · rcases habort : abort_if_unique_id_configured
            { s with bridge_id := normalize_bridge_id serial,
                     unique_id := some (normalize_bridge_id serial),
                     host := loc_host, port := loc_port }
            (Updates.mk (some loc_host) (some loc_port) none) reg with ⟨reg1, orr⟩
        cases orr <;>
          simp [step_ssdp, step_ssdp_continue, async_set_unique_id, step_link, hlook, hsrc, habort]
  · intro env serial ch cp ck s reg
    rcases habort : abort_if_unique_id_configured
        { s with bridge_id := normalize_bridge_id serial,
                 unique_id := some (normalize_bridge_id serial),
                 host := ch, port := cp, api_key := ck }
        (Updates.mk (some ch) (some cp) (some ck)) reg with ⟨reg1, orr⟩
    cases orr <;> simp [step_hassio, async_set_unique_id, habort]
  · intro env s reg raw hbid hres
    rcases habort : abort_if_unique_id_configured
        { s with bridge_id := normalize_bridge_id raw,
                 unique_id := some (normalize_bridge_id raw) }
        (Updates.mk (some s.host) (some s.port) (some s.api_key)) reg with ⟨reg1, orr⟩
    cases orr <;>
      simp [create_entry, hbid, hres, async_set_unique_id, async_create_entry,
        deconz_get_bridge_id, habort]
  · intro env hst s reg b hfind hne
    simp [step_user, hne, hfind, step_link]

/-- Claim C9 (amended): a re-authentication flow seeds host and port from the
existing entry's data, makes no discovery call, and goes directly to the link
step; but the identity is not pre-seeded (the session's bridge id is still
empty), so after a successful negotiation the identity-resolution call is
made rather than skipped. -/
theorem C9_reauth_flow (env : Env) (eh : String) (ep : Nat) (reg : Registry) :
    (step_reauth env eh ep (init_flow Source.reauth) reg).result
      = FlowResult.show_form "link" [] ∧
    (step_reauth env eh ep (init_flow Source.reauth) reg).state.host = eh ∧
    (step_reauth env eh ep (init_flow Source.reauth) reg).state.port = ep ∧
    (step_reauth env eh ep (init_flow Source.reauth) reg).state.bridge_id = "" ∧
    (step_reauth env eh ep (init_flow Source.reauth) reg).calls = [] ∧
    (step_reauth env eh ep (init_flow Source.reauth) reg).registry = reg ∧
    ∀ env2 k raw, env2.negotiation = LinkOutcome.ok k → env2.resolution = some raw →
      ExtCall.resolutionCall ∈
        (step_link env2 (some ())
          (step_reauth env eh ep (init_flow Source.reauth) reg).state
          (step_reauth env eh ep (init_flow Source.reauth) reg).registry).calls := by
  refine ⟨rfl, rfl, rfl, rfl, rfl, rfl, ?_⟩
  intro env2 k raw hk hres
  have hstate : (step_reauth env eh ep (init_flow Source.reauth) reg).state
      = { init_flow Source.reauth with host := eh, port := ep } := rfl
  have hreg : (step_reauth env eh ep (init_flow Source.reauth) reg).registry = reg := rfl
  rw [hstate, hreg]
  rcases habort : abort_if_unique_id_configured
      (FlowState.mk Source.reauth (deconz_get_bridge_id raw) [] eh ep k
        (some (deconz_get_bridge_id raw)))
      (Updates.mk (some eh) (some ep) (some k)) reg with ⟨reg1, orr⟩
  cases orr <;>
    simp [step_link, hk, create_entry, hres, async_set_unique_id, async_create_entry,
      init_flow, habort]

/-- Claim C3 (confirmed): an SSDP flow whose normalized identity matches an
existing host-platform-sourced record terminates immediately with abort
reason `already_configured`, performs no external calls (in particular zero
negotiation calls), and leaves the registry unchanged. -/
theorem C3_ssdp_aborts_before_link (env : Env) (serial loc_host : String) (loc_port : Nat)
    (s : FlowState) (reg : Registry) (e : ConfigEntry)
    (hl : lookup_entry reg (normalize_bridge_id serial) = some e)
    (hsrc : e.source = Source.hassio) :
    (step_ssdp env serial loc_host loc_port s reg).result
      = FlowResult.abort "already_configured" ∧
    (step_ssdp env serial loc_host loc_port s reg).calls = [] ∧
    (step_ssdp env serial loc_host loc_port s reg).registry = reg := by
  simp [step_ssdp, async_set_unique_id, hl, hsrc]

/-- Claim C1, counterexample: a user-initiated flow that selects a discovered
candidate whose identity already has a record commits a second record for the
same identity, leaving the old record unmodified — the claim's
update-in-place invariant fails on this trigger. -/
theorem C1_counterexample :
    (step_link (Env.mk (DiscoveryOutcome.ok []) (LinkOutcome.ok "NEWKEY") none) (some ())
      (step_user (Env.mk (DiscoveryOutcome.ok []) (LinkOutcome.ok "NEWKEY") none)
        (some "1.2.3.4")
        { init_flow Source.user with bridges := [DiscoveredBridge.mk "aabb" "1.2.3.4" 80] }
        [ConfigEntry.mk (some "aabb") Source.user "aabb" (EntryData.mk "5.6.7.8" 80 "OLDKEY")]).state
      (step_user (Env.mk (DiscoveryOutcome.ok []) (LinkOutcome.ok "NEWKEY") none)
        (some "1.2.3.4")
        { init_flow Source.user with bridges := [DiscoveredBridge.mk "aabb" "1.2.3.4" 80] }
        [ConfigEntry.mk (some "aabb") Source.user "aabb" (EntryData.mk "5.6.7.8" 80 "OLDKEY")]).registry).registry
    = [ConfigEntry.mk (some "aabb") Source.user "aabb" (EntryData.mk "5.6.7.8" 80 "OLDKEY"),
       ConfigEntry.mk none Source.user "aabb" (EntryData.mk "1.2.3.4" 80 "NEWKEY")] := by
  rfl

/-- Claim C2, counterexample: a hassio announcement for an identity whose
existing record is hassio-sourced aborts, but the record's host, port and
credential are updated to the announced values — contradicting the claim that
the flow aborts without modifying any field of the record. -/
theorem C2_counterexample :
    (step_hassio (Env.mk (DiscoveryOutcome.ok []) LinkOutcome.timeout none) "AA:BB" "2.2.2.2" 90
      "NEW" (init_flow Source.hassio)
      [ConfigEntry.mk (some "aabb") Source.hassio "aabb" (EntryData.mk "1.1.1.1" 80 "OLD")]).result
      = FlowResult.abort "already_configured" ∧
    (step_hassio (Env.mk (DiscoveryOutcome.ok []) LinkOutcome.timeout none) "AA:BB" "2.2.2.2" 90
      "NEW" (init_flow Source.hassio)
      [ConfigEntry.mk (some "aabb") Source.hassio "aabb" (EntryData.mk "1.1.1.1" 80 "OLD")]).registry
      = [ConfigEntry.mk (some "aabb") Source.hassio "aabb" (EntryData.mk "2.2.2.2" 90 "NEW")] := by
  exact ⟨rfl, rfl⟩

/-- Claim C8, counterexample: selecting a discovered candidate whose raw
identity is not in canonical form stores the raw identity unchanged in the
session, so the normalizer is not applied at that entry point. -/
theorem C8_counterexample :
    (step_user (Env.mk (DiscoveryOutcome.ok []) LinkOutcome.timeout none) (some "10.0.0.5")
      { init_flow Source.user with bridges := [DiscoveredBridge.mk "AA:BB" "10.0.0.5" 80] }
      []).state.bridge_id = "AA:BB" ∧
    normalize_bridge_id "AA:BB" ≠ "AA:BB" := by
  exact ⟨rfl, by decide⟩

/-- Claim C9, counterexample: after a re-authentication entry and a
successful negotiation, the flow performs an identity-resolution call,
contradicting the claim that the identity is already known in that flow and
resolution is skipped. -/
theorem C9_counterexample :
    (step_link (Env.mk (DiscoveryOutcome.ok []) (LinkOutcome.ok "K") (some "ABC")) (some ())
      (step_reauth (Env.mk (DiscoveryOutcome.ok []) (LinkOutcome.ok "K") (some "ABC")) "1.1.1.1" 80
        (init_flow Source.reauth)
        [ConfigEntry.mk (some "abc") Source.user "abc" (EntryData.mk "1.1.1.1" 80 "OLD")]).state
      (step_reauth (Env.mk (DiscoveryOutcome.ok []) (LinkOutcome.ok "K") (some "ABC")) "1.1.1.1" 80
        (init_flow Source.reauth)
        [ConfigEntry.mk (some "abc") Source.user "abc" (EntryData.mk "1.1.1.1" 80 "OLD")]).registry).calls
    = [ExtCall.negotiationCall, ExtCall.resolutionCall] := by
  rfl

/-- Claim C1 witness: the amended theorem instantiated for a manual-entry
flow committing over one existing record for the resolved identity. -/
theorem C1_witness :
    (create_entry (Env.mk (DiscoveryOutcome.ok []) LinkOutcome.timeout (some "ABC"))
        { init_flow Source.user with host := "9.9.9.9", port := 8080, api_key := "KEY" }
        [ConfigEntry.mk (some "abc") Source.user "abc" (EntryData.mk "1.1.1.1" 80 "OLD")]).result
      = FlowResult.abort "already_configured" ∧
    records_for (create_entry (Env.mk (DiscoveryOutcome.ok []) LinkOutcome.timeout (some "ABC"))
        { init_flow Source.user with host := "9.9.9.9", port := 8080, api_key := "KEY" }
        [ConfigEntry.mk (some "abc") Source.user "abc" (EntryData.mk "1.1.1.1" 80 "OLD")]).registry
      "abc" = 1 := by
  have h := C1_update_in_place
    (Env.mk (DiscoveryOutcome.ok []) LinkOutcome.timeout (some "ABC"))
    { init_flow Source.user with host := "9.9.9.9", port := 8080, api_key := "KEY" }
    [ConfigEntry.mk (some "abc") Source.user "abc" (EntryData.mk "1.1.1.1" 80 "OLD")]
    "ABC" (ConfigEntry.mk (some "abc") Source.user "abc" (EntryData.mk "1.1.1.1" 80 "OLD"))
    rfl rfl (by decide) (by decide)
  exact ⟨h.1, h.2.1⟩

/-- Claim C2 witness: the amended theorem's SSDP part instantiated over one
existing hassio-sourced record. -/
theorem C2_witness :
    (step_ssdp (Env.mk (DiscoveryOutcome.ok []) LinkOutcome.timeout none) "AA:BB" "3.3.3.3" 80
        (init_flow Source.ssdp)
        [ConfigEntry.mk (some "aabb") Source.hassio "aabb" (EntryData.mk "1.1.1.1" 80 "OLD")]).result
      = FlowResult.abort "already_configured" ∧
    (step_ssdp (Env.mk (DiscoveryOutcome.ok []) LinkOutcome.timeout none) "AA:BB" "3.3.3.3" 80
        (init_flow Source.ssdp)
        [ConfigEntry.mk (some "aabb") Source.hassio "aabb" (EntryData.mk "1.1.1.1" 80 "OLD")]).registry
      = [ConfigEntry.mk (some "aabb") Source.hassio "aabb" (EntryData.mk "1.1.1.1" 80 "OLD")] := by
  exact C2_announcement_precedence.1 (Env.mk (DiscoveryOutcome.ok []) LinkOutcome.timeout none)
    "AA:BB" "3.3.3.3" 80 (init_flow Source.ssdp)
    [ConfigEntry.mk (some "aabb") Source.hassio "aabb" (EntryData.mk "1.1.1.1" 80 "OLD")]
    (ConfigEntry.mk (some "aabb") Source.hassio "aabb" (EntryData.mk "1.1.1.1" 80 "OLD"))
    (by decide) rfl

/-- Claim C3 witness: the theorem instantiated for a concrete SSDP
announcement over an existing hassio-sourced record. -/
theorem C3_witness :
    (step_ssdp (Env.mk (DiscoveryOutcome.ok []) LinkOutcome.timeout none) "AA:BB" "4.4.4.4" 80
        (init_flow Source.ssdp)
        [ConfigEntry.mk (some "aabb") Source.hassio "aabb" (EntryData.mk "1.1.1.1" 80 "OLD")]).result
      = FlowResult.abort "already_configured" ∧
    (step_ssdp (Env.mk (DiscoveryOutcome.ok []) LinkOutcome.timeout none) "AA:BB" "4.4.4.4" 80
        (init_flow Source.ssdp)
        [ConfigEntry.mk (some "aabb") Source.hassio "aabb" (EntryData.mk "1.1.1.1" 80 "OLD")]).calls
      = [] ∧
    (step_ssdp (Env.mk (DiscoveryOutcome.ok []) LinkOutcome.timeout none) "AA:BB" "4.4.4.4" 80
        (init_flow Source.ssdp)
        [ConfigEntry.mk (some "aabb") Source.hassio "aabb" (EntryData.mk "1.1.1.1" 80 "OLD")]).registry
      = [ConfigEntry.mk (some "aabb") Source.hassio "aabb" (EntryData.mk "1.1.1.1" 80 "OLD")] := by
  exact C3_ssdp_aborts_before_link (Env.mk (DiscoveryOutcome.ok []) LinkOutcome.timeout none)
    "AA:BB" "4.4.4.4" 80 (init_flow Source.ssdp)
    [ConfigEntry.mk (some "aabb") Source.hassio "aabb" (EntryData.mk "1.1.1.1" 80 "OLD")]
    (ConfigEntry.mk (some "aabb") Source.hassio "aabb" (EntryData.mk "1.1.1.1" 80 "OLD"))
    (by decide) rfl

/-- Claim C4 witness: the theorem instantiated at the button-not-pressed and
timeout negotiation outcomes. -/
theorem C4_witness :
    (step_link (Env.mk (DiscoveryOutcome.ok []) LinkOutcome.linkButtonNotPressed none) (some ())
        (init_flow Source.user) []).result
      = FlowResult.show_form "link" [("base", "linking_not_possible")] ∧
    (step_link (Env.mk (DiscoveryOutcome.ok []) LinkOutcome.timeout none) (some ())
        (init_flow Source.user) []).result
      = FlowResult.show_form "link" [("base", "no_key")] := by
  exact ⟨(C4_link_outcomes (Env.mk (DiscoveryOutcome.ok []) LinkOutcome.linkButtonNotPressed none)
      (init_flow Source.user) []).2.1 rfl,
    (C4_link_outcomes (Env.mk (DiscoveryOutcome.ok []) LinkOutcome.timeout none)
      (init_flow Source.user) []).2.2.1 (Or.inr (Or.inr rfl))⟩

/-- Claim C5 witness: the theorem instantiated at a concrete timeout failure
of the negotiation. -/
theorem C5_witness :
    (step_link (Env.mk (DiscoveryOutcome.ok []) LinkOutcome.timeout none) (some ())
        { init_flow Source.user with host := "10.0.0.5", port := 80 } []).state
      = { init_flow Source.user with host := "10.0.0.5", port := 80 } ∧
    (step_link (Env.mk (DiscoveryOutcome.ok []) LinkOutcome.timeout none) (some ())
        { init_flow Source.user with host := "10.0.0.5", port := 80 } []).registry = [] := by
  have h := C5_link_failure_frame (Env.mk (DiscoveryOutcome.ok []) LinkOutcome.timeout none)
    { init_flow Source.user with host := "10.0.0.5", port := 80 } []
    (Or.inr (Or.inr (Or.inr rfl)))
  exact ⟨h.1, h.2.1⟩

/-- Claim C6 witness: the theorem instantiated at a concrete discovery
timeout. -/
theorem C6_witness :
    (step_user (Env.mk DiscoveryOutcome.timeout LinkOutcome.timeout none) none
        (init_flow Source.user) []).result = FlowResult.show_form "manual_input" [] := by
  exact (C6_discovery_failure_nonfatal (Env.mk DiscoveryOutcome.timeout LinkOutcome.timeout none)
    (init_flow Source.user) [] (Or.inl rfl)).1

/-- Claim C7 witness: the theorem instantiated at a concrete
identity-resolution timeout. -/
theorem C7_witness :
    (create_entry (Env.mk (DiscoveryOutcome.ok []) LinkOutcome.timeout none)
        { init_flow Source.user with host := "10.0.0.5", port := 80, api_key := "KEY" } []).result
      = FlowResult.abort "no_bridges" ∧
    (create_entry (Env.mk (DiscoveryOutcome.ok []) LinkOutcome.timeout none)
        { init_flow Source.user with host := "10.0.0.5", port := 80, api_key := "KEY" } []).registry
      = [] := by
  exact C7_resolution_timeout_aborts (Env.mk (DiscoveryOutcome.ok []) LinkOutcome.timeout none)
    { init_flow Source.user with host := "10.0.0.5", port := 80, api_key := "KEY" } [] rfl rfl

/-- Claim C8 witness: the amended theorem instantiated at a concrete SSDP
announcement and at a concrete discovered-candidate selection. -/
theorem C8_witness :
    (step_ssdp (Env.mk (DiscoveryOutcome.ok []) LinkOutcome.timeout none) "AA:CC" "5.5.5.5" 80
        (init_flow Source.ssdp) []).state.bridge_id = "aacc" ∧
    (step_user (Env.mk (DiscoveryOutcome.ok []) LinkOutcome.timeout none) (some "10.0.0.7")
        { init_flow Source.user with bridges := [DiscoveredBridge.mk "AA:CC" "10.0.0.7" 80] }
        []).state.bridge_id = "AA:CC" := by
  constructor
  · exact (C8_normalization_points.1 (Env.mk (DiscoveryOutcome.ok []) LinkOutcome.timeout none)
      "AA:CC" "5.5.5.5" 80 (init_flow Source.ssdp) []).trans (by decide)
  · exact C8_normalization_points.2.2.2 (Env.mk (DiscoveryOutcome.ok []) LinkOutcome.timeout none)
      "10.0.0.7"
      { init_flow Source.user with bridges := [DiscoveredBridge.mk "AA:CC" "10.0.0.7" 80] } []
      (DiscoveredBridge.mk "AA:CC" "10.0.0.7" 80) (by decide) (by decide)

/-- Claim C9 witness: the amended theorem instantiated at a concrete
re-authentication entry followed by a successful negotiation. -/
theorem C9_witness :
    (step_reauth (Env.mk (DiscoveryOutcome.ok []) (LinkOutcome.ok "K") (some "ABC")) "1.2.3.4" 80
        (init_flow Source.reauth) []).result = FlowResult.show_form "link" [] ∧
    ExtCall.resolutionCall ∈
      (step_link (Env.mk (DiscoveryOutcome.ok []) (LinkOutcome.ok "K") (some "ABC")) (some ())
        (step_reauth (Env.mk (DiscoveryOutcome.ok []) (LinkOutcome.ok "K") (some "ABC")) "1.2.3.4"
          80 (init_flow Source.reauth) []).state
        (step_reauth (Env.mk (DiscoveryOutcome.ok []) (LinkOutcome.ok "K") (some "ABC")) "1.2.3.4"
          80 (init_flow Source.reauth) []).registry).calls := by
  have h := C9_reauth_flow (Env.mk (DiscoveryOutcome.ok []) (LinkOutcome.ok "K") (some "ABC"))
    "1.2.3.4" 80 []
  exact ⟨h.1, h.2.2.2.2.2.2 (Env.mk (DiscoveryOutcome.ok []) (LinkOutcome.ok "K") (some "ABC"))
    "K" "ABC" rfl rfl⟩

end Deconz

